import Mathlib

/-!
Verification of the `MultimodalProcessor` orchestration core
(`src/multimodal_processor.cpp`) against its design specification.

The processor state, its five public operations and the release/engine-call
trace are embedded as pure Lean functions.  The `LLMWrapper` inference engine
and the generation outputs of the external engine are not implemented under
`src/`; they are modelled from the specification's interface contract (§6) as
an abstract environment.
-/

set_option autoImplicit false

namespace DecoPlan

/-- Opaque carrier standing in for the floating-point tuning fields
(`temperature`, `top_p`); the orchestrator only copies them verbatim. -/
abbrev FP := Int

/-- `MultimodalConfig`: the caller-supplied configuration
(language-model path, optional CLIP vision-model path, tuning parameters). -/
structure MultimodalConfig where
  model_path : String
  clip_model_path : String
  n_ctx : Nat
  n_gpu_layers : Int
  n_batch : Nat
  n_ubatch : Nat
  n_predict : Int
  temperature : FP
  top_p : FP
  top_k : Int
  seed : Int
  n_threads : Nat
deriving DecidableEq

/-- `InferenceConfig`: the engine-facing configuration built field by field
from a `MultimodalConfig` inside `initialize` (no CLIP path). -/
structure InferenceConfig where
  model_path : String
  n_ctx : Nat
  n_gpu_layers : Int
  n_batch : Nat
  n_ubatch : Nat
  n_predict : Int
  temperature : FP
  top_p : FP
  top_k : Int
  seed : Int
  n_threads : Nat
deriving DecidableEq

/-- Modelled from the spec: behaviour of the external collaborators whose
implementation is not under `src/` — whether `LLMWrapper::initialize`
succeeds for a given engine configuration (§6: `initialize(config) →
success/failure`), the text produced by blocking generation
(`generate(fullPrompt) → generatedText`), and the ordered chunks the
streaming generation delivers to the callback (`generateStreaming`). -/
structure Env where
  llmInitOk : InferenceConfig → Bool
  llmGenerate : String → String
  llmStreamChunks : String → List String

/-- Modelled from the spec: the `LLMWrapper` (InferenceEngine) handle state.
Its implementation is not under `src/`; per §6 it reports
`isLoaded() = true` iff its `initialize` succeeded and it has not been
cleaned up. -/
structure LLMWrapper where
  loaded : Bool
deriving DecidableEq

/-- A freshly constructed (`std::make_unique<LLMWrapper>()`) wrapper:
not yet loaded. -/
def LLMWrapper.new : LLMWrapper := { loaded := false }

/-- Modelled from the spec: `LLMWrapper::initialize` — succeeds exactly when
the environment says the engine configuration is loadable; afterwards the
wrapper reports loaded iff initialization succeeded. -/
def LLMWrapper.initialize (env : Env) (cfg : InferenceConfig) :
    Bool × LLMWrapper :=
  if env.llmInitOk cfg then (true, { loaded := true })
  else (false, { loaded := false })

/-- Modelled from the spec: `LLMWrapper::isLoaded`. -/
def LLMWrapper.isLoaded (l : LLMWrapper) : Bool := l.loaded

/-- Opaque CLIP vision-encoder context handle (`clip_ctx *`). -/
structure ClipCtx where
  id : Nat
deriving DecidableEq

/-- Opaque cached image embedding (`llava_image_embed *`); `src_path`
records which image file it was produced from. -/
structure ImageEmbed where
  src_path : String
deriving DecidableEq

/-- The member state of a `MultimodalProcessor`:
`llm_` (unique_ptr, `none` = null), `clip_ctx_` (raw pointer, `none` = null),
`image_embed_` (raw pointer, `none` = null), and `config_`
(`none` = still default-constructed, `some c` = assigned by `initialize`). -/
structure ProcState where
  llm_ : Option LLMWrapper
  clip_ctx_ : Option ClipCtx
  image_embed_ : Option ImageEmbed
  config_ : Option MultimodalConfig
deriving DecidableEq

/-- The constructor `MultimodalProcessor()`: all handles null. -/
def ProcState.new : ProcState :=
  { llm_ := none, clip_ctx_ := none, image_embed_ := none, config_ := none }

/-- Observable actions: resource releases and delegations to the engine.
`clipFree` corresponds to the `clip_free` call that appears (commented out)
in `cleanup`; it is needed to state the release order the spec prescribes. -/
inductive Action where
  | llavaImageEmbedFree
  | clipFree
  | llmCleanup
  | llmGenerate (full_prompt : String)
  | llmGenerateStreaming (full_prompt : String)
deriving DecidableEq

/-- The field-by-field translation `MultimodalConfig → InferenceConfig`
performed at the top of `MultimodalProcessor::initialize`. -/
def toInferenceConfig (config : MultimodalConfig) : InferenceConfig :=
  { model_path := config.model_path
    n_ctx := config.n_ctx
    n_gpu_layers := config.n_gpu_layers
    n_batch := config.n_batch
    n_ubatch := config.n_ubatch
    n_predict := config.n_predict
    temperature := config.temperature
    top_p := config.top_p
    top_k := config.top_k
    seed := config.seed
    n_threads := config.n_threads }

/-- `MultimodalProcessor::initialize`:
stores the config, allocates a fresh `LLMWrapper` into `llm_`, initializes
it, and returns `false` on engine failure (leaving `config_` and `llm_` as
just assigned).  The CLIP branch only prints: the `clip_model_load` call is
commented out in the source, so `clip_ctx_` is never assigned. -/
def MultimodalProcessor.initialize (env : Env) (s : ProcState)
    (config : MultimodalConfig) : Bool × ProcState :=
  let s1 : ProcState := { s with config_ := some config }
  let llm_config := toInferenceConfig config
  let (ok, llm1) := LLMWrapper.initialize env llm_config
  let s2 : ProcState := { s1 with llm_ := some llm1 }
  if !ok then
    (false, s2)
  else
    if config.clip_model_path = "" then
      (true, s2)
    else
      -- the `clip_model_load` call is commented out in the source:
      -- `clip_ctx_` is left unchanged and both branches only print
      (true, s2)

/-- `MultimodalProcessor::cleanup`:
frees the cached embedding (if any), nulls `clip_ctx_` (the `clip_free`
call is commented out in the source, so no release action is emitted for
it), then cleans up and resets `llm_`. -/
def MultimodalProcessor.cleanup (s : ProcState) : ProcState × List Action :=
  let (s1, t1) :=
    match s.image_embed_ with
    | some _ => (({ s with image_embed_ := none } : ProcState),
                 [Action.llavaImageEmbedFree])
    | none => (s, [])
  let s2 :=
    match s1.clip_ctx_ with
    | some _ => ({ s1 with clip_ctx_ := none } : ProcState)
    | none => s1
  let (s3, t3) :=
    match s2.llm_ with
    | some _ => (({ s2 with llm_ := none } : ProcState), [Action.llmCleanup])
    | none => (s2, [])
  (s3, t1 ++ t3)

/-- `MultimodalProcessor::loadImage`:
fails immediately when `clip_ctx_` is null; otherwise frees any previous
cached embedding.  The decode/encode calls are commented out in the source,
so no new embedding is created and the function returns
`clip_ctx_ != nullptr`. -/
def MultimodalProcessor.loadImage (s : ProcState) (_image_path : String) :
    Bool × ProcState × List Action :=
  if s.clip_ctx_.isNone then
    (false, s, [])
  else
    let (s1, t1) :=
      match s.image_embed_ with
      | some _ => (({ s with image_embed_ := none } : ProcState),
                   [Action.llavaImageEmbedFree])
      | none => (s, [])
    (s1.clip_ctx_.isSome, s1, t1)

/-- `MultimodalProcessor::isLoaded`: `llm_ && llm_->isLoaded()`. -/
def MultimodalProcessor.isLoaded (s : ProcState) : Bool :=
  match s.llm_ with
  | some l => l.isLoaded
  | none => false

/-- The runtime errors thrown by the generation methods. -/
inductive GenError where
  | invalidState
  | imageLoadError (image_path : String)
deriving DecidableEq

/-- `MultimodalProcessor::generateFromImage`:
throws InvalidState when not loaded; runs `loadImage` when `clip_ctx_` is
set and throws ImageLoadError on its failure; builds the full prompt
(LLaVA template when `clip_ctx_` is set, the raw prompt otherwise) and
delegates to `llm_->generate`. -/
def MultimodalProcessor.generateFromImage (env : Env) (s : ProcState)
    (image_path : String) (prompt : String) :
    Except GenError String × ProcState × List Action :=
  if !MultimodalProcessor.isLoaded s then
    (Except.error GenError.invalidState, s, [])
  else
    let (load_failed, s1, t1) :=
      if s.clip_ctx_.isSome then
        let (ok, s', t') := MultimodalProcessor.loadImage s image_path
        (!ok, s', t')
      else
        (false, s, [])
    if load_failed then
      (Except.error (GenError.imageLoadError image_path), s1, t1)
    else
      let full_prompt :=
        if s1.clip_ctx_.isSome then
          "USER: <image>\n" ++ prompt ++ "\nASSISTANT: "
        else
          prompt
      (Except.ok (env.llmGenerate full_prompt), s1,
       t1 ++ [Action.llmGenerate full_prompt])

/-- `MultimodalProcessor::generateFromImageStreaming`:
identical guards and prompt construction, delegating to
`llm_->generateStreaming`; the value carried on success is the ordered list
of chunks delivered to the callback. -/
def MultimodalProcessor.generateFromImageStreaming (env : Env) (s : ProcState)
    (image_path : String) (prompt : String) :
    Except GenError (List String) × ProcState × List Action :=
  if !MultimodalProcessor.isLoaded s then
    (Except.error GenError.invalidState, s, [])
  else
    let (load_failed, s1, t1) :=
      if s.clip_ctx_.isSome then
        let (ok, s', t') := MultimodalProcessor.loadImage s image_path
        (!ok, s', t')
      else
        (false, s, [])
    if load_failed then
      (Except.error (GenError.imageLoadError image_path), s1, t1)
    else
      let full_prompt :=
        if s1.clip_ctx_.isSome then
          "USER: <image>\n" ++ prompt ++ "\nASSISTANT: "
        else
          prompt
      (Except.ok (env.llmStreamChunks full_prompt), s1,
       t1 ++ [Action.llmGenerateStreaming full_prompt])

/-- The error component of a generation result, if any. -/
def errOf {α : Type} : Except GenError α → Option GenError
  | Except.error e => some e
  | Except.ok _ => none

/-- Whether an action is a delegation to the inference engine. -/
def isEngineCall : Action → Bool
  | Action.llmGenerate _ => true
  | Action.llmGenerateStreaming _ => true
  | _ => false

/-- The full prompt carried by an engine delegation, if the action is one. -/
def enginePromptOf : Action → Option String
  | Action.llmGenerate fp => some fp
  | Action.llmGenerateStreaming fp => some fp
  | _ => none

/-- The public operations of the processor, for reachability arguments. -/
inductive Op where
  | initializeProcessor (config : MultimodalConfig)
  | cleanup
  | loadImage (path : String)
  | generateFromImage (path : String) (prompt : String)
  | generateFromImageStreaming (path : String) (prompt : String)

/-- The state reached after one public call. -/
def step (env : Env) (s : ProcState) : Op → ProcState
  | Op.initializeProcessor config => ( MultimodalProcessor.initialize env s config).2
  | Op.cleanup => (MultimodalProcessor.cleanup s).1
  | Op.loadImage path => (MultimodalProcessor.loadImage s path).2.1
  | Op.generateFromImage path p =>
      (MultimodalProcessor.generateFromImage env s path p).2.1
  | Op.generateFromImageStreaming path p =>
      (MultimodalProcessor.generateFromImageStreaming env s path p).2.1

/-- The state reached from a freshly constructed processor after a sequence
of public calls. -/
def run (env : Env) (ops : List Op) : ProcState :=
  ops.foldl (step env) ProcState.new

/-- An environment whose engine loads for every configuration. -/
def envOk : Env :=
  { llmInitOk := fun _ => true
    llmGenerate := fun fp => "OUT:" ++ fp
    llmStreamChunks := fun fp => [fp] }

/-- An environment whose engine rejects every configuration (the
language-model path is not loadable). -/
def envFail : Env :=
  { llmInitOk := fun _ => false
    llmGenerate := fun _ => ""
    llmStreamChunks := fun _ => [] }

/-- A concrete configuration naming both a language-model path and a
vision-model path. -/
def cfg0 : MultimodalConfig :=
  { model_path := "models/llm.gguf"
    clip_model_path := "models/mmproj.gguf"
    n_ctx := 2048
    n_gpu_layers := 0
    n_batch := 512
    n_ubatch := 512
    n_predict := 128
    temperature := 0
    top_p := 0
    top_k := 40
    seed := 0
    n_threads := 4 }

/-- A state with a loaded engine, a vision-encoder handle and a previously
cached embedding (directly constructed: the current source can never
produce a non-null `clip_ctx_`, cf. the reachability theorem). -/
def sClipEmbed : ProcState :=
  { llm_ := some { loaded := true }
    clip_ctx_ := some { id := 0 }
    image_embed_ := some { src_path := "first.png" }
    config_ := none }

/-- A state whose only live handle is the vision encoder. -/
def sClipOnly : ProcState :=
  { llm_ := none
    clip_ctx_ := some { id := 0 }
    image_embed_ := none
    config_ := none }

/-- C3: `initialize` returns `true` iff the InferenceEngine initializes
successfully, independent of the vision-encoder outcome: the result equals
the engine-load outcome for the translated configuration, the engine handle
records exactly that outcome, the vision-encoder handle stays absent
(text-only mode), and replacing the vision-model path by any string leaves
the result unchanged. -/
theorem C3_initialize_iff_engine (env : Env) (config : MultimodalConfig)
    (v : String) :
    ( MultimodalProcessor.initialize env ProcState.new config).1
      = env.llmInitOk (toInferenceConfig config) ∧
    ( MultimodalProcessor.initialize env ProcState.new config).2.clip_ctx_
      = none ∧
    ( MultimodalProcessor.initialize env ProcState.new config).2.llm_
      = some { loaded := env.llmInitOk (toInferenceConfig config) } ∧
    MultimodalProcessor.isLoaded
        ( MultimodalProcessor.initialize env ProcState.new config).2
      = env.llmInitOk (toInferenceConfig config) ∧
    ( MultimodalProcessor.initialize env ProcState.new
        { config with clip_model_path := v }).1
      = ( MultimodalProcessor.initialize env ProcState.new config).1 := by
  have hc : toInferenceConfig { config with clip_model_path := v }
      = toInferenceConfig config := rfl
  cases h : env.llmInitOk (toInferenceConfig config) <;>
    simp [ MultimodalProcessor.initialize, LLMWrapper.initialize,
      MultimodalProcessor.isLoaded, LLMWrapper.isLoaded, ProcState.new, hc, h]

/-- C7: `isLoaded` is true iff the engine handle is present and itself
reports loaded; and for every configuration the engine rejects,
`initialize` from a fresh state returns failure and `isLoaded` is false
afterwards, regardless of the vision-model path. -/
theorem C7_isLoaded_iff (env : Env) (config : MultimodalConfig)
    (s : ProcState) (v : String) :
    (MultimodalProcessor.isLoaded s = true ↔
      ∃ l, s.llm_ = some l ∧ LLMWrapper.isLoaded l = true) ∧
    ( MultimodalProcessor.initialize env ProcState.new config).1
      = env.llmInitOk (toInferenceConfig config) ∧
    MultimodalProcessor.isLoaded
        ( MultimodalProcessor.initialize env ProcState.new config).2
      = env.llmInitOk (toInferenceConfig config) ∧
    MultimodalProcessor.isLoaded
        ( MultimodalProcessor.initialize env ProcState.new
          { config with clip_model_path := v }).2
      = env.llmInitOk (toInferenceConfig config) := by
  have hc : toInferenceConfig { config with clip_model_path := v }
      = toInferenceConfig config := rfl
  refine ⟨?_, ?_⟩
  · obtain ⟨llm, clip, embed, cfg⟩ := s
    cases llm <;> simp [MultimodalProcessor.isLoaded, LLMWrapper.isLoaded]
  · cases h : env.llmInitOk (toInferenceConfig config) <;>
      simp [ MultimodalProcessor.initialize, LLMWrapper.initialize,
        MultimodalProcessor.isLoaded, LLMWrapper.isLoaded, ProcState.new,
        hc, h]

theorem C7_isLoaded_iff_witness :
    (MultimodalProcessor.isLoaded ProcState.new = true ↔
      ∃ l, ProcState.new.llm_ = some l ∧ LLMWrapper.isLoaded l = true) ∧
    ( MultimodalProcessor.initialize envFail ProcState.new cfg0).1
      = envFail.llmInitOk (toInferenceConfig cfg0) ∧
    MultimodalProcessor.isLoaded
        ( MultimodalProcessor.initialize envFail ProcState.new cfg0).2
      = envFail.llmInitOk (toInferenceConfig cfg0) ∧
    MultimodalProcessor.isLoaded
        ( MultimodalProcessor.initialize envFail ProcState.new
          { cfg0 with clip_model_path := "other.gguf" }).2
      = envFail.llmInitOk (toInferenceConfig cfg0) :=
  C7_isLoaded_iff envFail cfg0 ProcState.new "other.gguf"

/-- C8: for every path, `loadImage` on a processor with no vision encoder
fails immediately and leaves the state exactly unchanged, emitting no
release or engine action. -/
theorem C8_loadImage_no_encoder (s : ProcState) (path : String)
    (h : s.clip_ctx_ = none) :
    MultimodalProcessor.loadImage s path = (false, s, []) := by
  simp [MultimodalProcessor.loadImage, h]

theorem C8_loadImage_no_encoder_witness :
    ProcState.new.clip_ctx_ = none ∧
    MultimodalProcessor.loadImage ProcState.new "image.png"
      = (false, ProcState.new, []) :=
  ⟨rfl, C8_loadImage_no_encoder ProcState.new "image.png" rfl⟩

/-- C1 counterexample: with an engine that rejects every configuration
(unloadable language-model path), `initialize` returns failure, yet the
config has been stored and the engine handle is still present — partial
state survives the failed call, contrary to the claim. -/
theorem C1_counterexample :
    ( MultimodalProcessor.initialize envFail ProcState.new cfg0).1 = false ∧
    ( MultimodalProcessor.initialize envFail ProcState.new cfg0).2.config_
      = some cfg0 ∧
    ( MultimodalProcessor.initialize envFail ProcState.new cfg0).2.llm_.isSome
      = true :=
  ⟨rfl, rfl, rfl⟩

/-- C1 (amended): if the InferenceEngine fails to initialize, `initialize`
returns failure, no vision-encoder handle or cached embedding is created,
and `isLoaded` stays false — but the stored config and the (non-loaded)
engine wrapper handle survive the failed call. -/
theorem C1_initialize_failure_state (env : Env) (config : MultimodalConfig)
    (h : env.llmInitOk (toInferenceConfig config) = false) :
    MultimodalProcessor.initialize env ProcState.new config =
      (false,
       { llm_ := some { loaded := false }, clip_ctx_ := none,
         image_embed_ := none, config_ := some config }) ∧
    MultimodalProcessor.isLoaded
        ( MultimodalProcessor.initialize env ProcState.new config).2
      = false := by
  simp [ MultimodalProcessor.initialize, LLMWrapper.initialize,
    MultimodalProcessor.isLoaded, LLMWrapper.isLoaded, ProcState.new, h]

/-- C2 counterexample: on a processor with a loaded vision encoder,
`loadImage` reports success, yet the cache is left empty instead of
containing the new embedding keyed by the requested path (the decode and
encode steps are commented out in the source). -/
theorem C2_counterexample :
    (MultimodalProcessor.loadImage sClipEmbed "second.png").1 = true ∧
    (MultimodalProcessor.loadImage sClipEmbed "second.png").2.1.image_embed_
      = none :=
  ⟨rfl, rfl⟩

/-- C2 (amended): for every `loadImage` call on a processor whose vision
encoder is loaded, the call succeeds, any previously cached embedding is
released, and the cache is left empty — no new embedding is stored (the
decode/encode step is commented out in the source).  Hence two consecutive
calls with different paths leave the cache empty: never both images, never
the first, but not the second either. -/
theorem C2_loadImage_clears_cache (s : ProcState) (path : String)
    (h : s.clip_ctx_.isSome = true) :
    MultimodalProcessor.loadImage s path =
      (true, { s with image_embed_ := none },
       if s.image_embed_.isSome then [Action.llavaImageEmbedFree] else []) := by
  obtain ⟨llm, clip, embed, cfg⟩ := s
  cases clip <;> cases embed <;> simp_all [MultimodalProcessor.loadImage]

theorem C2_loadImage_clears_cache_witness :
    sClipEmbed.clip_ctx_.isSome = true ∧
    MultimodalProcessor.loadImage sClipEmbed "second.png" =
      (true, { sClipEmbed with image_embed_ := none },
       if sClipEmbed.image_embed_.isSome then [Action.llavaImageEmbedFree]
       else []) :=
  ⟨rfl, C2_loadImage_clears_cache sClipEmbed "second.png" rfl⟩

/-- The release sequence the claim prescribes for `cleanup`, stated from
the spec's words (§4.2): release the cached image embedding, then the
vision encoder, then the engine — one release action per live resource. -/
def cleanupClaimTrace (s : ProcState) : List Action :=
  (if s.image_embed_.isSome then [Action.llavaImageEmbedFree] else []) ++
  (if s.clip_ctx_.isSome then [Action.clipFree] else []) ++
  (if s.llm_.isSome then [Action.llmCleanup] else [])

/-- C6 counterexample: on a state holding a vision-encoder handle,
`cleanup` emits no release action at all — the encoder handle is only
nulled (the `clip_free` call is commented out in the source), so the
release sequence the claim prescribes is not performed. -/
theorem C6_counterexample :
    sClipOnly.clip_ctx_.isSome = true ∧
    (MultimodalProcessor.cleanup sClipOnly).2 = [] ∧
    cleanupClaimTrace sClipOnly = [Action.clipFree] :=
  ⟨rfl, rfl, rfl⟩

/-- C6 (amended): `cleanup` releases the cached image embedding, then nulls
the vision-encoder handle without a release call (the `clip_free` call is
commented out in the source), then releases the engine; every handle is
null afterwards, and a second consecutive `cleanup` performs no release
action: it returns the same state and an empty action list, so the state
after two cleanups equals the state after one. -/
theorem C6_cleanup_idempotent (s : ProcState) :
    (MultimodalProcessor.cleanup s).1 =
      { llm_ := none, clip_ctx_ := none, image_embed_ := none,
        config_ := s.config_ } ∧
    (MultimodalProcessor.cleanup s).2 =
      (if s.image_embed_.isSome then [Action.llavaImageEmbedFree] else []) ++
      (if s.llm_.isSome then [Action.llmCleanup] else []) ∧
    MultimodalProcessor.cleanup (MultimodalProcessor.cleanup s).1
      = ((MultimodalProcessor.cleanup s).1, []) := by
  obtain ⟨llm, clip, embed, cfg⟩ := s
  cases llm <;> cases clip <;> cases embed <;>
    simp [MultimodalProcessor.cleanup]

/-- The prompt construction of §4.4 as it occurs in both generation
methods: the LLaVA template when the vision encoder is loaded, the raw
user prompt otherwise. -/
def fullPromptOf (s : ProcState) (p : String) : String :=
  if s.clip_ctx_.isSome then "USER: <image>\n" ++ p ++ "\nASSISTANT: "
  else p

/-- The state after the conditional internal `loadImage` of a generation
call. -/
def afterLoad (s : ProcState) : ProcState :=
  if s.clip_ctx_.isSome then { s with image_embed_ := none } else s

/-- The release actions of the conditional internal `loadImage` of a
generation call. -/
def loadTrace (s : ProcState) : List Action :=
  if s.clip_ctx_.isSome && s.image_embed_.isSome then
    [Action.llavaImageEmbedFree]
  else []

/-- C4: on a loaded processor, the full prompt delegated to the engine is
exactly `"USER: <image>\n" ++ p ++ "\nASSISTANT: "` when the vision
encoder is loaded and exactly `p` unchanged when it is not, in both the
blocking and the streaming path, with no other formatting: each call
performs exactly one engine delegation, carrying exactly that prompt. -/
theorem C4_full_prompt (env : Env) (s : ProcState) (path p : String)
    (h : MultimodalProcessor.isLoaded s = true) :
    MultimodalProcessor.generateFromImage env s path p =
      (Except.ok (env.llmGenerate (fullPromptOf s p)), afterLoad s,
       loadTrace s ++ [Action.llmGenerate (fullPromptOf s p)]) ∧
    MultimodalProcessor.generateFromImageStreaming env s path p =
      (Except.ok (env.llmStreamChunks (fullPromptOf s p)), afterLoad s,
       loadTrace s ++ [Action.llmGenerateStreaming (fullPromptOf s p)]) := by
  obtain ⟨llm, clip, embed, cfg⟩ := s
  cases clip <;> cases embed <;>
    simp_all [MultimodalProcessor.generateFromImage,
      MultimodalProcessor.generateFromImageStreaming,
      MultimodalProcessor.loadImage, fullPromptOf, afterLoad, loadTrace]

theorem C4_full_prompt_witness :
    MultimodalProcessor.isLoaded sClipEmbed = true ∧
    (MultimodalProcessor.generateFromImage envOk sClipEmbed "img.png"
        "Describe this" =
      (Except.ok (envOk.llmGenerate (fullPromptOf sClipEmbed "Describe this")),
       afterLoad sClipEmbed,
       loadTrace sClipEmbed ++
         [Action.llmGenerate (fullPromptOf sClipEmbed "Describe this")]) ∧
     MultimodalProcessor.generateFromImageStreaming envOk sClipEmbed
        "img.png" "Describe this" =
      (Except.ok
        (envOk.llmStreamChunks (fullPromptOf sClipEmbed "Describe this")),
       afterLoad sClipEmbed,
       loadTrace sClipEmbed ++
         [Action.llmGenerateStreaming
           (fullPromptOf sClipEmbed "Describe this")])) :=
  ⟨rfl, C4_full_prompt envOk sClipEmbed "img.png" "Describe this" rfl⟩

theorem C1_initialize_failure_state_witness :
    envFail.llmInitOk (toInferenceConfig cfg0) = false ∧
    ( MultimodalProcessor.initialize envFail ProcState.new cfg0 =
      (false,
       { llm_ := some { loaded := false }, clip_ctx_ := none,
         image_embed_ := none, config_ := some cfg0 }) ∧
     MultimodalProcessor.isLoaded
        ( MultimodalProcessor.initialize envFail ProcState.new cfg0).2
      = false) :=
  ⟨rfl, C1_initialize_failure_state envFail cfg0 rfl⟩

/-- C5: both generation methods fail with InvalidState whenever the
processor is not loaded, leaving the state unchanged and performing no
engine or release action (hence no output and no callback invocation);
every error result is either InvalidState or an ImageLoadError carrying
exactly the requested path; and whenever a call fails, no engine
delegation occurs and the state is unchanged. -/
theorem C5_generation_errors (env : Env) (s : ProcState) (path p : String) :
    (MultimodalProcessor.isLoaded s = false →
      MultimodalProcessor.generateFromImage env s path p
        = (Except.error GenError.invalidState, s, []) ∧
      MultimodalProcessor.generateFromImageStreaming env s path p
        = (Except.error GenError.invalidState, s, [])) ∧
    (errOf (MultimodalProcessor.generateFromImage env s path p).1 = none ∨
     errOf (MultimodalProcessor.generateFromImage env s path p).1
       = some GenError.invalidState ∨
     errOf (MultimodalProcessor.generateFromImage env s path p).1
       = some (GenError.imageLoadError path)) ∧
    ((errOf (MultimodalProcessor.generateFromImage env s path p).1).isSome
        = true →
      (MultimodalProcessor.generateFromImage env s path p).2.2.filter
          isEngineCall = [] ∧
      (MultimodalProcessor.generateFromImage env s path p).2.1 = s) ∧
    (errOf (MultimodalProcessor.generateFromImageStreaming env s path p).1
        = none ∨
     errOf (MultimodalProcessor.generateFromImageStreaming env s path p).1
       = some GenError.invalidState ∨
     errOf (MultimodalProcessor.generateFromImageStreaming env s path p).1
       = some (GenError.imageLoadError path)) ∧
    ((errOf
        (MultimodalProcessor.generateFromImageStreaming env s path p).1).isSome
        = true →
      (MultimodalProcessor.generateFromImageStreaming env s path p).2.2.filter
          isEngineCall = [] ∧
      (MultimodalProcessor.generateFromImageStreaming env s path p).2.1 = s) := by
  obtain ⟨llm, clip, embed, cfg⟩ := s
  rcases llm with _ | ⟨⟨b⟩⟩
  · simp [MultimodalProcessor.generateFromImage,
      MultimodalProcessor.generateFromImageStreaming,
      MultimodalProcessor.isLoaded, errOf, isEngineCall]
  · cases b <;> cases clip <;> cases embed <;>
      simp [MultimodalProcessor.generateFromImage,
        MultimodalProcessor.generateFromImageStreaming,
        MultimodalProcessor.isLoaded, LLMWrapper.isLoaded,
        MultimodalProcessor.loadImage, errOf, isEngineCall]

theorem C5_generation_errors_witness :
    MultimodalProcessor.generateFromImage envOk ProcState.new "img.png" "hi"
      = (Except.error GenError.invalidState, ProcState.new, []) ∧
    MultimodalProcessor.generateFromImageStreaming envOk ProcState.new
        "img.png" "hi"
      = (Except.error GenError.invalidState, ProcState.new, []) :=
  (C5_generation_errors envOk ProcState.new "img.png" "hi").1 rfl

/-- The "no vision state" invariant: null `clip_ctx_` and empty cache. -/
def NoVision (s : ProcState) : Prop :=
  s.clip_ctx_ = none ∧ s.image_embed_ = none

theorem noVision_step (env : Env) (s : ProcState) (op : Op)
    (h : NoVision s) : NoVision (step env s op) := by
  obtain ⟨llm, clip, embed, cfg⟩ := s
  obtain ⟨hc, he⟩ := h
  simp only [NoVision] at hc he ⊢
  subst hc; subst he
  rcases op with c | _ | pa | ⟨pa, pr⟩ | ⟨pa, pr⟩
  · cases hok : env.llmInitOk (toInferenceConfig c) <;>
      simp [step, MultimodalProcessor.initialize, LLMWrapper.initialize, hok]
  · cases llm <;> simp [step, MultimodalProcessor.cleanup]
  · simp [step, MultimodalProcessor.loadImage]
  · cases hL : MultimodalProcessor.isLoaded ⟨llm, none, none, cfg⟩ <;>
      simp [step, MultimodalProcessor.generateFromImage, hL]
  · cases hL : MultimodalProcessor.isLoaded ⟨llm, none, none, cfg⟩ <;>
      simp [step, MultimodalProcessor.generateFromImageStreaming, hL]

theorem noVision_run (env : Env) (ops : List Op) : NoVision (run env ops) := by
  have h : ∀ (l : List Op) (s : ProcState),
      NoVision s → NoVision (List.foldl (step env) s l) := by
    intro l
    induction l with
    | nil => intro s hs; simpa using hs
    | cons op l ih => intro s hs; exact ih _ (noVision_step env s op hs)
  exact h ops ProcState.new ⟨rfl, rfl⟩

/-- C9: after any sequence of public calls the vision-encoder handle is
null and the embedding cache empty (so the processor is uninitialized or
text-only); `loadImage` fails from every reachable state; and both
generation methods either fail with InvalidState or delegate exactly the
raw user prompt — the ImageLoadError branch is unreachable. -/
theorem C9_vision_never_loaded (env : Env) (ops : List Op) (path p : String) :
    (run env ops).clip_ctx_ = none ∧
    (run env ops).image_embed_ = none ∧
    (MultimodalProcessor.loadImage (run env ops) path).1 = false ∧
    MultimodalProcessor.generateFromImage env (run env ops) path p =
      (if MultimodalProcessor.isLoaded (run env ops) then
        (Except.ok (env.llmGenerate p), run env ops, [Action.llmGenerate p])
       else
        (Except.error GenError.invalidState, run env ops, [])) ∧
    MultimodalProcessor.generateFromImageStreaming env (run env ops) path p =
      (if MultimodalProcessor.isLoaded (run env ops) then
        (Except.ok (env.llmStreamChunks p), run env ops,
         [Action.llmGenerateStreaming p])
       else
        (Except.error GenError.invalidState, run env ops, [])) := by
  obtain ⟨hc, he⟩ := noVision_run env ops
  refine ⟨hc, he, ?_, ?_, ?_⟩
  · simp [MultimodalProcessor.loadImage, hc]
  · cases hL : MultimodalProcessor.isLoaded (run env ops) <;>
      simp [MultimodalProcessor.generateFromImage, hc, hL]
  · cases hL : MultimodalProcessor.isLoaded (run env ops) <;>
      simp [MultimodalProcessor.generateFromImageStreaming, hc, hL]

/-- C10: the blocking and streaming generation methods are equivalent up
to the final engine call: for every state, path and prompt they produce
the same error (if any), reach the same post-state, delegate
character-for-character identical full prompts to the engine, and perform
identical non-engine (release) actions. -/
theorem C10_blocking_streaming_equiv (env : Env) (s : ProcState)
    (path p : String) :
    errOf (MultimodalProcessor.generateFromImage env s path p).1
      = errOf
          (MultimodalProcessor.generateFromImageStreaming env s path p).1 ∧
    (MultimodalProcessor.generateFromImage env s path p).2.1
      = (MultimodalProcessor.generateFromImageStreaming env s path p).2.1 ∧
    ((MultimodalProcessor.generateFromImage env s path p).2.2.filterMap
        enginePromptOf)
      = ((MultimodalProcessor.generateFromImageStreaming env s
            path p).2.2.filterMap enginePromptOf) ∧
    ((MultimodalProcessor.generateFromImage env s path p).2.2.filter
        (fun a => !isEngineCall a))
      = ((MultimodalProcessor.generateFromImageStreaming env s
            path p).2.2.filter (fun a => !isEngineCall a)) := by
  obtain ⟨llm, clip, embed, cfg⟩ := s
  rcases llm with _ | ⟨⟨b⟩⟩
  · simp [MultimodalProcessor.generateFromImage,
      MultimodalProcessor.generateFromImageStreaming,
      MultimodalProcessor.isLoaded, errOf, isEngineCall, enginePromptOf]
  · cases b <;> cases clip <;> cases embed <;>
      simp [MultimodalProcessor.generateFromImage,
        MultimodalProcessor.generateFromImageStreaming,
        MultimodalProcessor.isLoaded, LLMWrapper.isLoaded,
        MultimodalProcessor.loadImage, errOf, isEngineCall, enginePromptOf]

end DecoPlan
